import Mathlib

/-!
Verification development for the Folder Creator program
(`Create_folders.py`).  The program is a desktop form that validates
three text fields, expands a fixed two-level folder taxonomy according
to checkbox state, and creates the resulting directories.

The shallow embedding below transcribes, from the source:
  * the three regular-expression validators and `_validate_inputs`
    (lines 396-465);
  * the folder taxonomy `tree`, `sub_sub_map` and `layout_order`
    (lines 164-211) and the path expansion of `create_folders`
    (lines 363-386);
  * the checkbox trace callbacks `update_select_all`,
    `toggle_all_children` and the `_bulk_update` flag (lines 300-325);
  * `reset_form` (lines 336-348);
  * `create_folder` / `Path.mkdir(parents=True, exist_ok=True)`
    (lines 35-44), both as an idealized filesystem-state model and as
    an oracle-driven run model for OS errors and user prompts.

Strings are modelled as Lean `String` (lists of characters); Python
`str.strip` and the regex classes are transcribed character-class by
character-class.  Python's `\s` / `str.isspace` character set is
reproduced exactly (ASCII whitespace, the file/group/record/unit
separators, NEL, NBSP and the Unicode space code points), and so is
Python's `\d` on `str` (every Unicode decimal digit, category `Nd`,
Unicode 14.0.0 — not only ASCII `[0-9]`).
-/

namespace FolderCreator

/-! ### Character classes of the regular expressions -/

/-- Python whitespace (`\s` in `re` on `str`, and the set stripped by
`str.strip`): space, tab, LF, VT, FF, CR, FS..US, NEL, NBSP and the
Unicode space separators. -/
def isPySpace (c : Char) : Bool :=
  decide (c.toNat = 32) || decide (9 ≤ c.toNat ∧ c.toNat ≤ 13) ||
  decide (28 ≤ c.toNat ∧ c.toNat ≤ 31) || decide (c.toNat = 133) ||
  decide (c.toNat = 160) || decide (c.toNat = 5760) ||
  decide (8192 ≤ c.toNat ∧ c.toNat ≤ 8202) || decide (c.toNat = 8232) ||
  decide (c.toNat = 8233) || decide (c.toNat = 8239) ||
  decide (c.toNat = 8287) || decide (c.toNat = 12288)

/-- `[A-Za-z]`. -/
def isAsciiLetter (c : Char) : Bool :=
  decide (65 ≤ c.toNat ∧ c.toNat ≤ 90) || decide (97 ≤ c.toNat ∧ c.toNat ≤ 122)

/-- `[0-9]` (the explicit ASCII digit part of the acronym-body
class). -/
def isAsciiDigit (c : Char) : Bool :=
  decide (48 ≤ c.toNat ∧ c.toNat ≤ 57)

/-- The code-point ranges of the Unicode decimal digits (category
`Nd`, Unicode 14.0.0, the set matched by Python 3's `\d` on `str`):
ASCII digits plus the decimal-digit blocks of the other scripts
(Arabic-Indic, Devanagari, ..., fullwidth, mathematical, ...). -/
def pyDigitRanges : List (Nat × Nat) :=
  [(48, 57), (1632, 1641), (1776, 1785), (1984, 1993), (2406, 2415),
   (2534, 2543), (2662, 2671), (2790, 2799), (2918, 2927), (3046, 3055),
   (3174, 3183), (3302, 3311), (3430, 3439), (3558, 3567), (3664, 3673),
   (3792, 3801), (3872, 3881), (4160, 4169), (4240, 4249), (6112, 6121),
   (6160, 6169), (6470, 6479), (6608, 6617), (6784, 6793), (6800, 6809),
   (6992, 7001), (7088, 7097), (7232, 7241), (7248, 7257), (42528, 42537),
   (43216, 43225), (43264, 43273), (43472, 43481), (43504, 43513),
   (43600, 43609), (44016, 44025), (65296, 65305), (66720, 66729),
   (68912, 68921), (69734, 69743), (69872, 69881), (69942, 69951),
   (70096, 70105), (70384, 70393), (70736, 70745), (70864, 70873),
   (71248, 71257), (71360, 71369), (71472, 71481), (71904, 71913),
   (72016, 72025), (72784, 72793), (73040, 73049), (73120, 73129),
   (92768, 92777), (92864, 92873), (93008, 93017), (120782, 120831),
   (123200, 123209), (123632, 123641), (125264, 125273), (130032, 130041)]

/-- Python's `\d` on `str` (the year digits): any Unicode decimal
digit, not only ASCII. -/
def isPyDigit (c : Char) : Bool :=
  pyDigitRanges.any (fun r => decide (r.1 ≤ c.toNat ∧ c.toNat ≤ r.2))

/-- First character of the acronym body: `[A-Za-z0-9]`. -/
def isAcroStart (c : Char) : Bool :=
  isAsciiLetter c || isAsciiDigit c

/-- Continuation of the acronym body: `[A-Za-z0-9\- _]`
(letters, digits, hyphen, space, underscore). -/
def isAcroCont (c : Char) : Bool :=
  isAcroStart c || decide (c.toNat = 45) || decide (c.toNat = 95) ||
  decide (c.toNat = 32)

/-- First character of the person name: `[A-Za-zÀ-ÖØ-öø-ÿ]`
(ASCII letters plus the Latin-1 letter ranges C0-D6, D8-F6, F8-FF). -/
def isPersonStart (c : Char) : Bool :=
  isAsciiLetter c || decide (192 ≤ c.toNat ∧ c.toNat ≤ 214) ||
  decide (216 ≤ c.toNat ∧ c.toNat ≤ 246) ||
  decide (248 ≤ c.toNat ∧ c.toNat ≤ 255)

/-- Continuation of the person name: `[A-Za-zÀ-ÖØ-öø-ÿ\s\-\.\']`
(person-start letters, whitespace, hyphen (45), period (46),
apostrophe (39)). -/
def isPersonCont (c : Char) : Bool :=
  isPersonStart c || isPySpace c || decide (c.toNat = 45) ||
  decide (c.toNat = 46) || decide (c.toNat = 39)

/-! ### Python `str.strip` -/

/-- `str.strip()` on the character list: drop leading and trailing
Python whitespace. -/
def stripChars (l : List Char) : List Char :=
  ((l.dropWhile isPySpace).reverse.dropWhile isPySpace).reverse

/-- `str.strip()` on a string. -/
def pyStrip (s : String) : String :=
  String.mk (stripChars s.data)

/-! ### The three regular-expression validators

Each Python pattern is anchored (`re.match` with a final `$`, or
`re.fullmatch`), so it matches the whole (already stripped) string;
the transcriptions below are the exact languages of the patterns. -/

/-- `re.match(r"^([A-Za-z])\-([A-Za-z0-9][A-Za-z0-9\- _]*)$", name)`
(line 431).  Returns the code letter (group 1) and the acronym body
(group 2). -/
def matchCodeAcronym : List Char → Option (Char × List Char)
  | c :: '-' :: d :: rest =>
      if isAsciiLetter c && isAcroStart d && rest.all isAcroCont then
        some (c, d :: rest)
      else none
  | _ => none

/-- `re.match(r"^(\d{4})\-([A-Za-zÀ-ÖØ-öø-ÿ][A-Za-zÀ-ÖØ-öø-ÿ\s\-\.\']*)$", meta)`
(line 441).  Returns the four year digits (group 1) and the person
characters (group 2). -/
def matchYearPerson : List Char → Option (List Char × List Char)
  | y1 :: y2 :: y3 :: y4 :: '-' :: p :: rest =>
      if isPyDigit y1 && isPyDigit y2 && isPyDigit y3 &&
          isPyDigit y4 && isPersonStart p && rest.all isPersonCont then
        some ([y1, y2, y3, y4], p :: rest)
      else none
  | _ => none

/-- `re.fullmatch(r"^[A-Za-z]$", drive)` (line 450). -/
def matchDrive : List Char → Option Char
  | [c] => if isAsciiLetter c then some c else none
  | _ => none

/-! ### Validation (`_validate_inputs`, lines 396-465) -/

/-- The four validation failures surfaced by `_validate_inputs`
(missing-fields prompt, "Invalid Name", "Invalid format",
"Invalid Drive"). -/
inductive ValidationError where
  | missingFields (fields : List String)
  | invalidName
  | invalidMeta
  | invalidDrive
deriving DecidableEq, Repr

/-- The data computed by a successful `_validate_inputs` run
(lines 436-465; the Python function returns the triple
`(project_code, acronym, main)`, the other fields are its locals). -/
structure Validated where
  code : Char
  acronym : String
  year : String
  person : String
  projectCode : String
  base : String
  mainFolderName : String
  mainFolder : String
deriving DecidableEq, Repr

/-- The `missing` list built at lines 402-408, in source order. -/
def missingList (name meta drive : String) : List String :=
  (if name = "" then ["Code & Project Acronym"] else []) ++
  (if meta = "" then ["Start Year & Person"] else []) ++
  (if drive = "" then ["Drive/Path"] else [])

/-- `_validate_inputs` (lines 396-465): strip the three entries, fail
on missing fields, then on the code-acronym pattern, then on the
year-person pattern, then on the drive pattern; on success derive
`code.upper()`, `person.strip()`, `base = drive.upper() + ":/"`,
`yy = year[-2:]`, `project_code = code + yy`,
`main_folder_name = project_code-acronym-year-person` and
`main = base / main_folder_name`. -/
def validateInputs (nameRaw metaRaw driveRaw : String) :
    Except ValidationError Validated :=
  if missingList (pyStrip nameRaw) (pyStrip metaRaw) (pyStrip driveRaw) ≠ [] then
    .error (.missingFields
      (missingList (pyStrip nameRaw) (pyStrip metaRaw) (pyStrip driveRaw)))
  else
    match matchCodeAcronym (pyStrip nameRaw).data with
    | none => .error .invalidName
    | some (c, body) =>
      match matchYearPerson (pyStrip metaRaw).data with
      | none => .error .invalidMeta
      | some (yearChars, personChars) =>
        match matchDrive (pyStrip driveRaw).data with
        | none => .error .invalidDrive
        | some dch =>
          .ok { code := c.toUpper
              , acronym := String.mk body
              , year := String.mk yearChars
              , person := String.mk (stripChars personChars)
              , projectCode :=
                  String.mk [c.toUpper] ++ String.mk (yearChars.drop 2)
              , base := String.mk [dch.toUpper, ':', '/']
              , mainFolderName :=
                  String.mk [c.toUpper] ++ String.mk (yearChars.drop 2) ++ "-" ++
                  String.mk body ++ "-" ++ String.mk yearChars ++ "-" ++
                  String.mk (stripChars personChars)
              , mainFolder :=
                  String.mk [dch.toUpper, ':', '/'] ++
                  (String.mk [c.toUpper] ++ String.mk (yearChars.drop 2) ++ "-" ++
                   String.mk body ++ "-" ++ String.mk yearChars ++ "-" ++
                   String.mk (stripChars personChars)) }








/-- The `Validated` record produced for the spec's end-to-end example
inputs `A-CABCAR`, `2026-Peter`, drive `D`. -/
def exampleValidated : Validated :=
  { code := 'A', acronym := "CABCAR", year := "2026", person := "Peter",
    projectCode := "A26", base := "D:/",
    mainFolderName := "A26-CABCAR-2026-Peter",
    mainFolder := "D:/A26-CABCAR-2026-Peter" }

/-! ### The folder taxonomy (`self.tree`, lines 164-187) -/

/-- `self.tree`: the six sections with their ordered subfolder lists,
in declaration order. -/
def tree : List (String × List String) :=
  [("Intro & Documentation",
     ["General Info", "Project Proposal", "Go-to Person", "Fieldwork Site",
      "Sample list 4 Lab-Team", "Material List",
      "Fieldwork Protocol-Planning-Permission", "Images", "Meetings"]),
   ("Lab Measurements",
     ["TOC", "pH", "CN", "ICP-MS", "CFA", "Aqualog", "Raw Data Preparation",
      "Misc-Lab Data"]),
   ("Field Measurements",
     ["Meteorology", "Hydrology", "Vegetation", "Soil"]),
   ("Geodata",
     ["Coordinates", "Maps", "Satellite Images"]),
   ("Finance & Administration",
     ["Approvals & Guidelines", "Expenditure Reports", "Account Overview",
      "Bank Statements", "Personnel-Assistants & Staff",
      "Contracts - Service & Transfer", "Travel Expense Reports",
      "Reimbursement Claims", "Purchase Orders"]),
   ("Outcome",
     ["Master Files", "Presentations", "Publications", "Reports", "Logo",
      "Other Outputs"])]

/-- `self.sub_sub_map` (lines 190-201): the Option-A fixed
sub-subfolder exceptions. -/
def sub_sub_map : List (String × List (String × List String)) :=
  [("Finance & Administration",
     [("Personnel-Assistants & Staff",
        ["Personnel-Assistants", "Personnel-Staff"]),
      ("Contracts - Service & Transfer",
        ["Contracts-Service", "Contracts-Transfer"])]),
   ("Field Measurements",
     [("Meteorology", ["Meteorology Manual", "Meteorology Instrument"]),
      ("Hydrology", ["Hydrology Manual", "Hydrology Instrument"]),
      ("Vegetation", ["Vegetation Manual", "Vegetation Instrument"]),
      ("Soil", ["Soil Manual", "Soil Instrument"])])]

/-- `self.layout_order` section names (lines 204-211); this is the
insertion order of `self.section_vars`, over which `create_folders`
iterates. -/
def layout_order : List String :=
  ["Intro & Documentation", "Lab Measurements", "Field Measurements",
   "Geodata", "Finance & Administration", "Outcome"]

/-- `self.tree[section]` lookup (`self.sub_vars[section]` is built from
it in the same order, line 292). -/
def treeSubs (s : String) : List String :=
  match tree.find? (fun p => p.1 == s) with
  | some p => p.2
  | none => []

/-- `self.sub_sub_map.get(section, {}).get(sub, [])` (line 384). -/
def subSubChildren (sect sub : String) : List String :=
  match sub_sub_map.find? (fun p => p.1 == sect) with
  | none => []
  | some p =>
    match p.2.find? (fun q => q.1 == sub) with
    | none => []
    | some q => q.2

/-- Every label the taxonomy can contribute to a folder name: section
names, subfolder names, and sub-subfolder (extra-child) names. -/
def allLabels : List String :=
  tree.map (fun p => p.1) ++ tree.flatMap (fun p => p.2) ++
  sub_sub_map.flatMap (fun p => p.2.flatMap (fun q => q.2))

/-- The `f"{project_code}-{acronym} {label}"` format used for section,
subfolder and extra-child folder names (lines 372, 380, 386). -/
def codeLabelName (pc acr label : String) : String :=
  pc ++ "-" ++ acr ++ " " ++ label

/-! ### Path expansion of `create_folders` (lines 363-386)

Paths are modelled as strings joined with `/`; `create_folders`'s
sequence of `create_folder` calls becomes the ordered list of paths it
creates.  The loop iterates over `self.section_vars` (insertion order =
`layout_order`) with subfolder lists from `self.tree`. -/

/-- The ordered list of paths passed to `create_folder` by
`create_folders`, given the validated `project_code`, `acronym` and
`main_folder` and the checkbox states (`secSel section` is
`self.section_vars[section].get()`, `subSel section sub` is the
corresponding `self.sub_vars` entry). -/
def createFolders (pc acr mainFolder : String)
    (secSel : String → Bool) (subSel : String → String → Bool) :
    List String :=
  (layout_order.map (fun s => (s, treeSubs s))).foldl
    (fun acc sp =>
      if secSel sp.1 then
        sp.2.foldl
          (fun acc2 sub =>
            if subSel sp.1 sub then
              (subSubChildren sp.1 sub).foldl
                (fun acc3 child =>
                  acc3 ++ [mainFolder ++ "/" ++ codeLabelName pc acr sp.1 ++
                    "/" ++ codeLabelName pc acr sub ++ "/" ++
                    codeLabelName pc acr child])
                (acc2 ++ [mainFolder ++ "/" ++ codeLabelName pc acr sp.1 ++
                  "/" ++ codeLabelName pc acr sub])
            else acc2)
          (acc ++ [mainFolder ++ "/" ++ codeLabelName pc acr sp.1])
      else acc)
    [mainFolder]

/-- Modelled from the spec: `planCreationPaths` as section 4.2 words
it — main folder path first, then for each section with its flag true
in taxonomy declaration order the section folder path, followed by each
selected subfolder's path and that subfolder's extra-children paths. -/
def planCreationPaths (pc acr mainFolder : String)
    (secSel : String → Bool) (subSel : String → String → Bool) :
    List String :=
  mainFolder ::
    (tree.filter (fun sp => secSel sp.1)).flatMap (fun sp =>
      (mainFolder ++ "/" ++ codeLabelName pc acr sp.1) ::
        (sp.2.filter (subSel sp.1)).flatMap (fun sub =>
          (mainFolder ++ "/" ++ codeLabelName pc acr sp.1 ++ "/" ++
            codeLabelName pc acr sub) ::
            (subSubChildren sp.1 sub).map (fun child =>
              mainFolder ++ "/" ++ codeLabelName pc acr sp.1 ++ "/" ++
                codeLabelName pc acr sub ++ "/" ++
                codeLabelName pc acr child)))



/-! ### Checkbox state of one section (lines 272-325)

Per section the UI holds one `IntVar` per subfolder, one "select all"
`IntVar`, and the application-wide `_bulk_update` flag.  Writing a
variable fires its `trace_add("write", ...)` callback synchronously:
a subfolder write fires `update_select_all`, a select-all write fires
`toggle_all_children` (which is not guarded by `_bulk_update`). -/

/-- The checkbox variables of one section: the subfolder booleans (in
`self.tree[section]` order), the "select all" boolean and the
`_bulk_update` flag (the flag is application-global in the source, but
all callback activity stays within the section that was written). -/
structure SecState where
  subs : List Bool
  selAll : Bool
  bulk : Bool
deriving DecidableEq, Repr

/-- `toggle_all_children` (lines 316-320): set `_bulk_update`, write
every subfolder variable (each write fires `update_select_all`, which
returns immediately because `_bulk_update` is set), clear
`_bulk_update`. -/
def toggle_all_children (st : SecState) (b : Bool) : SecState :=
  { st with subs := st.subs.map (fun _ => b), bulk := false }

/-- Writing the select-all variable: the variable takes the new value
and its write trace (line 323) fires `toggle_all_children` with it. -/
def writeSelectAll (st : SecState) (b : Bool) : SecState :=
  toggle_all_children { st with selAll := b } b

/-- `update_select_all` (lines 307-314): if `_bulk_update` is set,
return; otherwise recompute `all_on` and, when the select-all variable
disagrees, set `_bulk_update`, write the select-all variable (firing
its trace), clear `_bulk_update`. -/
def update_select_all (st : SecState) : SecState :=
  if st.bulk then st
  else
    let allOn := st.subs.all (fun b => b)
    if st.selAll != allOn then
      { writeSelectAll { st with bulk := true } allOn with bulk := false }
    else st

/-- Writing one subfolder variable (index `i`): the variable takes the
new value and its write trace (line 325) fires `update_select_all`. -/
def writeSubVar (st : SecState) (i : Nat) (b : Bool) : SecState :=
  update_select_all { st with subs := st.subs.set i b }

/-! ### Form state and `reset_form` (lines 336-348) -/

/-- The form's mutable state: the three entry widgets' texts, the
section checkboxes (in `layout_order`) and each section's subfolder /
select-all variables. -/
structure FormState where
  entry_name : String
  entry_meta : String
  entry_drive : String
  section_vars : List Bool
  sections : List SecState
deriving DecidableEq, Repr

/-- The `for section, subs in self.sub_vars.items()` loop of
`reset_form` restricted to one section: write each subfolder variable
to 0 in order (each write fires `update_select_all`). -/
def clearSubsLoop (s : SecState) : SecState :=
  (List.range s.subs.length).foldl (fun st i => writeSubVar st i false) s

/-- `reset_form` (lines 336-348): clear the name and meta entries
(`entry_drive.delete` is commented out in the source), write every
section variable to 0, then every subfolder variable to 0, then every
select-all variable to 0 (the last write fires `toggle_all_children`).
The section-variable traces only enable/disable widgets and touch no
modelled variable. -/
def reset_form (st : FormState) : FormState :=
  { st with
    entry_name := ""
    entry_meta := ""
    section_vars := st.section_vars.map (fun _ => false)
    sections := st.sections.map (fun s => writeSelectAll (clearSubsLoop s) false) }

/-! ### Filesystem model of `create_folder` (lines 35-44)

A directory tree is the list of existing directories, each a list of
path components.  `Path.mkdir(parents=True, exist_ok=True)` succeeds
silently on an existing directory and otherwise creates every missing
ancestor and the directory itself. -/

/-- The non-empty ancestor chains of a path, shortest first
(`parents=True` creation order). -/
def dirChain (p : List String) : List (List String) :=
  (List.range p.length).map (fun i => p.take (i + 1))

/-- `Path.mkdir(parents=..., exist_ok=...)` on the directory-tree
model: an existing directory errors unless `exist_ok`; a missing one is
created together with its missing ancestors. -/
def mkdirFs (fs : List (List String)) (p : List String) (existOk : Bool) :
    Except String (List (List String)) :=
  if p ∈ fs then
    if existOk then .ok fs else .error "FileExistsError"
  else
    .ok ((dirChain p).foldl
      (fun acc q => if q ∈ acc then acc else acc ++ [q]) fs)

/-- `create_folder`'s filesystem effect: `path.mkdir(parents=True,
exist_ok=True)` (line 38). -/
def create_folderFs (fs : List (List String)) (p : List String) :
    Except String (List (List String)) :=
  mkdirFs fs p true

/-- Running the planned creation sequence against the directory tree:
each path in order through `create_folder`. -/
def createAllFs (fs : List (List String)) :
    List (List String) → Except String (List (List String))
  | [] => .ok fs
  | p :: rest =>
    match create_folderFs fs p with
    | .ok fs2 => createAllFs fs2 rest
    | .error e => .error e

/-! ### Run model of `create_folder` error handling (lines 35-44)

OS errors and the user's answers are an oracle; a failing `mkdir`
prints the error and asks "Continue?"; answering no calls
`sys.exit(1)`, which abandons the remaining paths. -/

/-- What happened at one path: created, failed with the user choosing
to continue, or failed with the user declining (process exit). -/
inductive Outcome where
  | created
  | failedContinue
  | failedAbort
deriving DecidableEq, Repr

/-- The environment of a run: which paths raise `OSError` in `mkdir`,
and how the user answers the per-failure "Continue?" prompt. -/
structure Oracle where
  mkdirFails : String → Bool
  userContinues : String → Bool

/-- The observable outcome sequence of calling `create_folder` on each
path in order (lines 35-44): success appends `created`; on `OSError`
the user is prompted, `yes` continues with the remaining paths,
`no` exits the process, so no further path is attempted. -/
def createAllRun (o : Oracle) : List String → List (String × Outcome)
  | [] => []
  | p :: rest =>
    if o.mkdirFails p = false then (p, .created) :: createAllRun o rest
    else if o.userContinues p then (p, .failedContinue) :: createAllRun o rest
    else [(p, .failedAbort)]

/-! ### Helper lemmas -/

lemma map_const_false : ∀ l : List Bool, l.map (fun _ => false) = List.replicate l.length false
  | [] => rfl
  | _ :: t => by simp [List.replicate, map_const_false t]

lemma writeSubVar_subs_length (st : SecState) (i : Nat) (b : Bool) :
    (writeSubVar st i b).subs.length = st.subs.length := by
  unfold writeSubVar update_select_all writeSelectAll toggle_all_children
  dsimp only
  split
  · simp
  · split <;> simp

lemma clearSubsLoop_foldl_length :
    ∀ (ixs : List Nat) (st : SecState),
      ((ixs.foldl (fun st i => writeSubVar st i false) st).subs.length = st.subs.length)
  | [], _ => rfl
  | i :: t, st => by
      rw [List.foldl_cons, clearSubsLoop_foldl_length t, writeSubVar_subs_length]

lemma clearSubsLoop_subs_length (s : SecState) :
    (clearSubsLoop s).subs.length = s.subs.length :=
  clearSubsLoop_foldl_length _ s

lemma getLast?_cons_of_ne_nil {α : Type} (a : α) {l : List α} (h : l ≠ []) :
    (a :: l).getLast? = l.getLast? := by
  cases l with
  | nil => exact absurd rfl h
  | cons b t => simp [List.getLast?, List.getLast]

/-! ### C1 -/

/-- **C1.** The claim asserts that toggling a single subfolder boolean
recomputes select-all while the other subfolder booleans keep their
values.  The code violates this: with both subfolders of a section
selected (select-all true), the user clearing subfolder 0 makes
`update_select_all` write select-all to false, whose write trace fires
`toggle_all_children` (unguarded by `_bulk_update`), which clears
subfolder 1 as well.  This theorem evaluates the embedded trace
machinery at that failing input. -/
theorem c1_uncheck_clears_all_subfolders :
    writeSubVar { subs := [true, true], selAll := true, bulk := false } 0 false =
      { subs := [false, false], selAll := false, bulk := false } ∧
    (writeSubVar { subs := [true, true], selAll := true, bulk := false } 0 false).subs ≠
      [false, true] := by
  exact ⟨rfl, by decide⟩

/-! ### C7 -/

/-- **C7 counterexample.** The claim states creation "continues
attempting every remaining path" after an I/O failure.  With an oracle
on which path `"a"` fails and the user answers no to the "Continue?"
prompt, the run attempts only `"a"` (`sys.exit(1)`), never `"b"`. -/
theorem c7_counterexample_abort_stops :
    (createAllRun { mkdirFails := fun p => p == "a", userContinues := fun _ => false }
        ["a", "b"]).map Prod.fst = ["a"] ∧
    ["a"] ≠ ["a", "b"] := by
  exact ⟨by decide, by decide⟩

/-- **C7 (amended).** Directory creation does not stop automatically on
an I/O failure: every failure is surfaced to the user (its outcome is
`failedContinue` or `failedAbort`, never `created`, and successes are
exactly the non-failing paths); if the user answers yes to every
"Continue?" prompt, every planned path is attempted in order; and when
the user declines, the run stops at that failure — the aborting path is
the last one attempted. -/
theorem c7_failures_reported_continue_on_consent :
    ∀ (o : Oracle) (paths : List String),
      ((∀ p, o.userContinues p = true) →
        (createAllRun o paths).map Prod.fst = paths) ∧
      (∀ pr ∈ createAllRun o paths,
        (o.mkdirFails pr.1 = false ↔ pr.2 = Outcome.created)) ∧
      (∀ pr ∈ createAllRun o paths, pr.2 = Outcome.failedAbort →
        (createAllRun o paths).getLast? = some pr) := by
  intro o paths
  refine ⟨?_, ?_, ?_⟩
  · intro hyes
    induction paths with
    | nil => rfl
    | cons p rest ih =>
      by_cases hf : o.mkdirFails p = false
      · simp [createAllRun, hf, ih]
      · simp [createAllRun, hf, hyes p, ih]
  · induction paths with
    | nil => intro pr h; cases h
    | cons p rest ih =>
      intro pr hpr
      by_cases hf : o.mkdirFails p = false
      · rw [createAllRun, if_pos hf] at hpr
        rcases List.mem_cons.mp hpr with h | h
        · subst h; simpa using hf
        · exact ih pr h
      · rw [createAllRun, if_neg hf] at hpr
        by_cases hc : o.userContinues p = true
        · rw [if_pos hc] at hpr
          rcases List.mem_cons.mp hpr with h | h
          · subst h
            simp only [Bool.not_eq_false] at hf
            simp [hf]
          · exact ih pr h
        · rw [if_neg hc] at hpr
          rcases List.mem_cons.mp hpr with h | h
          · subst h
            simp only [Bool.not_eq_false] at hf
            simp [hf]
          · cases h
  · induction paths with
    | nil => intro pr h; cases h
    | cons p rest ih =>
      intro pr hpr habort
      by_cases hf : o.mkdirFails p = false
      · rw [createAllRun, if_pos hf] at hpr ⊢
        rcases List.mem_cons.mp hpr with h | h
        · subst h; cases habort
        · rw [getLast?_cons_of_ne_nil _ (List.ne_nil_of_mem h)]
          exact ih pr h habort
      · rw [createAllRun, if_neg hf] at hpr ⊢
        by_cases hc : o.userContinues p = true
        · rw [if_pos hc] at hpr ⊢
          rcases List.mem_cons.mp hpr with h | h
          · subst h; cases habort
          · rw [getLast?_cons_of_ne_nil _ (List.ne_nil_of_mem h)]
            exact ih pr h habort
        · rw [if_neg hc] at hpr ⊢
          rcases List.mem_cons.mp hpr with h | h
          · subst h; rfl
          · cases h

/-- Witness for C7 (amended): on a run where path `"a"` fails and the
user consents to continue, both paths are attempted; the failure is
reported (`failedContinue`), the success is `created`. -/
theorem c7_failures_reported_witness :
    (createAllRun { mkdirFails := fun p => p == "a", userContinues := fun _ => true }
        ["a", "b"]).map Prod.fst = ["a", "b"] ∧
    ("a", Outcome.failedContinue) ∈
      createAllRun { mkdirFails := fun p => p == "a", userContinues := fun _ => true }
        ["a", "b"] ∧
    (Outcome.failedContinue = Outcome.created ↔ False) := by
  refine ⟨(c7_failures_reported_continue_on_consent _ _).1 (fun _ => rfl), by decide, by decide⟩

/-! ### C8 helper lemmas -/

lemma mem_addChain_of_mem {q : List String} :
    ∀ (l : List (List String)) (fs : List (List String)), q ∈ fs →
      q ∈ l.foldl (fun acc r => if r ∈ acc then acc else acc ++ [r]) fs
  | [], _, h => h
  | r :: t, fs, h => by
      rw [List.foldl_cons]
      by_cases hr : r ∈ fs
      · rw [if_pos hr]; exact mem_addChain_of_mem t fs h
      · rw [if_neg hr]
        exact mem_addChain_of_mem t _ (List.mem_append_left _ h)

lemma mem_addChain_of_mem_chain {q : List String} :
    ∀ (l : List (List String)) (fs : List (List String)), q ∈ l →
      q ∈ l.foldl (fun acc r => if r ∈ acc then acc else acc ++ [r]) fs
  | [], _, h => absurd h (List.not_mem_nil q)
  | r :: t, fs, h => by
      rw [List.foldl_cons]
      rcases List.mem_cons.mp h with h | h
      · subst h
        by_cases hr : q ∈ fs
        · rw [if_pos hr]; exact mem_addChain_of_mem t fs hr
        · rw [if_neg hr]
          exact mem_addChain_of_mem t _ (List.mem_append_right _ (List.mem_singleton.mpr rfl))
      · by_cases hr : r ∈ fs
        · rw [if_pos hr]; exact mem_addChain_of_mem_chain t fs h
        · rw [if_neg hr]; exact mem_addChain_of_mem_chain t _ h

lemma self_mem_dirChain {p : List String} (hp : p ≠ []) : p ∈ dirChain p := by
  have hlen : 0 < p.length := List.length_pos.mpr hp
  unfold dirChain
  refine List.mem_map.mpr ⟨p.length - 1, ?_, ?_⟩
  · rw [List.mem_range]; omega
  · have h1 : p.length - 1 + 1 = p.length := by omega
    rw [h1, List.take_length]

lemma create_folderFs_ok (fs : List (List String)) (p : List String) (hp : p ≠ []) :
    ∃ fs2, create_folderFs fs p = .ok fs2 ∧
      (∀ q ∈ fs, q ∈ fs2) ∧ p ∈ fs2 := by
  unfold create_folderFs mkdirFs
  by_cases hmem : p ∈ fs
  · exact ⟨fs, by rw [if_pos hmem]; rfl, fun q h => h, hmem⟩
  · refine ⟨_, by rw [if_neg hmem], ?_, ?_⟩
    · exact fun q h => mem_addChain_of_mem _ _ h
    · exact mem_addChain_of_mem_chain _ _ (self_mem_dirChain hp)

lemma createAllFs_ok :
    ∀ (paths : List (List String)) (fs : List (List String)),
      (∀ p ∈ paths, p ≠ []) →
      ∃ fs1, createAllFs fs paths = .ok fs1 ∧
        (∀ q ∈ fs, q ∈ fs1) ∧ (∀ p ∈ paths, p ∈ fs1)
  | [], fs, _ => ⟨fs, rfl, fun _ h => h, fun p h => absurd h (List.not_mem_nil p)⟩
  | p :: rest, fs, h => by
      obtain ⟨fs2, heq, hmono, hmem⟩ :=
        create_folderFs_ok fs p (h p (List.mem_cons_self p rest))
      obtain ⟨fs1, heq1, hmono1, hmem1⟩ :=
        createAllFs_ok rest fs2 (fun q hq => h q (List.mem_cons_of_mem p hq))
      refine ⟨fs1, ?_, fun q hq => hmono1 q (hmono q hq), ?_⟩
      · rw [createAllFs, heq]; exact heq1
      · intro q hq
        rcases List.mem_cons.mp hq with h' | h'
        · subst h'; exact hmono1 q hmem
        · exact hmem1 q h'

lemma createAllFs_noop :
    ∀ (paths : List (List String)) (fs : List (List String)),
      (∀ p ∈ paths, p ∈ fs) → createAllFs fs paths = .ok fs
  | [], _, _ => rfl
  | p :: rest, fs, h => by
      have hp : p ∈ fs := h p (List.mem_cons_self p rest)
      have : create_folderFs fs p = .ok fs := by
        unfold create_folderFs mkdirFs
        rw [if_pos hp]
        rfl
      rw [createAllFs, this]
      exact createAllFs_noop rest fs (fun q hq => h q (List.mem_cons_of_mem p hq))

/-! ### C8 -/

/-- **C8.** Directory creation is idempotent: if `createAll` on a list
of (non-empty) planned paths turns the directory tree `fs` into `fs1`,
then running it again on the same paths produces no error and leaves
the tree unchanged, because each call creates missing ancestors and
treats an already-existing directory as success
(`mkdir(parents=True, exist_ok=True)`). -/
theorem c8_createAll_idempotent :
    ∀ (fs : List (List String)) (paths : List (List String)) (fs1 : List (List String)),
      (∀ p ∈ paths, p ≠ []) →
      createAllFs fs paths = .ok fs1 →
      createAllFs fs1 paths = .ok fs1 := by
  intro fs paths fs1 hne hrun
  obtain ⟨fs1', heq, _, hmem⟩ := createAllFs_ok paths fs hne
  rw [hrun] at heq
  injection heq with heq
  subst heq
  exact createAllFs_noop paths _ hmem

/-- Witness for C8: creating `D:/A26-CABCAR-2026-Peter` (components
`["D:", "A26-CABCAR-2026-Peter"]`) on an empty tree yields the root and
the folder; a second run returns the same tree with no error. -/
theorem c8_createAll_idempotent_witness :
    createAllFs [["D:"], ["D:", "A26-CABCAR-2026-Peter"]]
        [["D:", "A26-CABCAR-2026-Peter"]] =
      .ok [["D:"], ["D:", "A26-CABCAR-2026-Peter"]] :=
  c8_createAll_idempotent [] [["D:", "A26-CABCAR-2026-Peter"]] _
    (by decide) rfl

/-! ### C9 -/

/-- **C9.** `reset_form` clears exactly the two text identity fields
and every section, subfolder and select-all boolean, and leaves the
drive field's value unchanged. -/
theorem c9_reset_clears_all_but_drive :
    ∀ st : FormState,
      reset_form st =
        { entry_name := "", entry_meta := "",
          entry_drive := st.entry_drive,
          section_vars := List.replicate st.section_vars.length false,
          sections := st.sections.map (fun s =>
            { subs := List.replicate s.subs.length false,
              selAll := false, bulk := false }) } := by
  intro st
  unfold reset_form
  have hsec : ∀ s : SecState,
      writeSelectAll (clearSubsLoop s) false =
        { subs := List.replicate s.subs.length false,
          selAll := false, bulk := false } := by
    intro s
    unfold writeSelectAll toggle_all_children
    simp only [map_const_false, clearSubsLoop_subs_length]
  simp only [map_const_false, hsec]

/-! ### Validation inversion lemmas -/

lemma matchCodeAcronym_inv {l : List Char} {c : Char} {body : List Char}
    (h : matchCodeAcronym l = some (c, body)) :
    ∃ d rest, l = c :: '-' :: d :: rest ∧ body = d :: rest ∧
      isAsciiLetter c = true ∧ isAcroStart d = true ∧
      rest.all isAcroCont = true := by
  unfold matchCodeAcronym at h
  split at h
  · rename_i c0 d rest
    split at h
    · rename_i hcond
      injection h with h2
      obtain ⟨rfl, rfl⟩ := Prod.mk.injEq .. ▸ h2
      simp only [Bool.and_eq_true] at hcond
      exact ⟨d, rest, rfl, rfl, hcond.1.1, hcond.1.2, hcond.2⟩
    · cases h
  · cases h

lemma matchYearPerson_inv {l : List Char} {y pc : List Char}
    (h : matchYearPerson l = some (y, pc)) :
    ∃ y1 y2 y3 y4 q rest,
      l = y1 :: y2 :: y3 :: y4 :: '-' :: q :: rest ∧
      y = [y1, y2, y3, y4] ∧ pc = q :: rest ∧
      isPyDigit y1 = true ∧ isPyDigit y2 = true ∧
      isPyDigit y3 = true ∧ isPyDigit y4 = true ∧
      isPersonStart q = true ∧ rest.all isPersonCont = true := by
  unfold matchYearPerson at h
  split at h
  · rename_i y1 y2 y3 y4 q rest
    split at h
    · rename_i hcond
      injection h with h2
      obtain ⟨rfl, rfl⟩ := Prod.mk.injEq .. ▸ h2
      simp only [Bool.and_eq_true] at hcond
      exact ⟨y1, y2, y3, y4, q, rest, rfl, rfl, rfl,
        hcond.1.1.1.1.1, hcond.1.1.1.1.2, hcond.1.1.1.2,
        hcond.1.1.2, hcond.1.2, hcond.2⟩
    · cases h
  · cases h

lemma matchDrive_inv {l : List Char} {c : Char} (h : matchDrive l = some c) :
    l = [c] ∧ isAsciiLetter c = true := by
  unfold matchDrive at h
  split at h
  · rename_i c0
    split at h
    · rename_i hcond
      injection h with h2
      subst h2
      exact ⟨rfl, hcond⟩
    · cases h
  · cases h

/-- Inverting a successful `_validate_inputs` run: the three patterns
matched on the stripped inputs and the result is exactly the record
built at lines 436-465. -/
lemma validateInputs_ok_inv {n m d : String} {v : Validated}
    (h : validateInputs n m d = .ok v) :
    ∃ c body yearChars personChars dch,
      matchCodeAcronym (pyStrip n).data = some (c, body) ∧
      matchYearPerson (pyStrip m).data = some (yearChars, personChars) ∧
      matchDrive (pyStrip d).data = some dch ∧
      v = { code := c.toUpper
          , acronym := String.mk body
          , year := String.mk yearChars
          , person := String.mk (stripChars personChars)
          , projectCode := String.mk [c.toUpper] ++ String.mk (yearChars.drop 2)
          , base := String.mk [dch.toUpper, ':', '/']
          , mainFolderName :=
              String.mk [c.toUpper] ++ String.mk (yearChars.drop 2) ++ "-" ++
              String.mk body ++ "-" ++ String.mk yearChars ++ "-" ++
              String.mk (stripChars personChars)
          , mainFolder :=
              String.mk [dch.toUpper, ':', '/'] ++
              (String.mk [c.toUpper] ++ String.mk (yearChars.drop 2) ++ "-" ++
               String.mk body ++ "-" ++ String.mk yearChars ++ "-" ++
               String.mk (stripChars personChars)) } := by
  unfold validateInputs at h
  split at h
  · cases h
  · split at h
    · cases h
    · rename_i c body hca
      split at h
      · cases h
      · rename_i yearChars personChars hyp
        split at h
        · cases h
        · rename_i dch hdr
          injection h with h2
          exact ⟨c, body, yearChars, personChars, dch, hca, hyp, hdr, h2.symm⟩

/-! ### C2 -/

/-- **C2.** For every input accepted by validation, the main folder
name is `projectCode-acronym-year-person` with hyphen separators,
`projectCode` is the uppercased code letter followed by the last two
characters of the 4-digit year, and the main path is rooted at
`uppercase(drive) + ":/"`. -/
theorem c2_main_folder_name :
    ∀ (n m d : String) (v : Validated), validateInputs n m d = .ok v →
      ∃ c body yearChars personChars dch,
        matchCodeAcronym (pyStrip n).data = some (c, body) ∧
        matchYearPerson (pyStrip m).data = some (yearChars, personChars) ∧
        matchDrive (pyStrip d).data = some dch ∧
        isAsciiLetter c = true ∧
        yearChars.length = 4 ∧
        v.code = c.toUpper ∧
        v.projectCode = String.mk [c.toUpper] ++ String.mk (yearChars.drop 2) ∧
        v.mainFolderName =
          v.projectCode ++ "-" ++ v.acronym ++ "-" ++ v.year ++ "-" ++ v.person ∧
        v.base = String.mk [dch.toUpper, ':', '/'] ∧
        v.mainFolder = v.base ++ v.mainFolderName := by
  intro n m d v h
  obtain ⟨c, body, yearChars, personChars, dch, hca, hyp, hdr, hv⟩ :=
    validateInputs_ok_inv h
  obtain ⟨d0, rest, _, _, hletter, _, _⟩ := matchCodeAcronym_inv hca
  obtain ⟨y1, y2, y3, y4, q, prest, _, hy, _, _⟩ := matchYearPerson_inv hyp
  subst hv
  exact ⟨c, body, yearChars, personChars, dch, hca, hyp, hdr, hletter,
    by rw [hy]; rfl, rfl, rfl, rfl, rfl, rfl⟩

/-- Witness for C2 at the spec's end-to-end example. -/
theorem c2_main_folder_name_witness :
    ∃ c body yearChars personChars dch,
      matchCodeAcronym (pyStrip "A-CABCAR").data = some (c, body) ∧
      matchYearPerson (pyStrip "2026-Peter").data = some (yearChars, personChars) ∧
      matchDrive (pyStrip "D").data = some dch ∧
      isAsciiLetter c = true ∧
      yearChars.length = 4 ∧
      exampleValidated.code = c.toUpper ∧
      exampleValidated.projectCode =
        String.mk [c.toUpper] ++ String.mk (yearChars.drop 2) ∧
      exampleValidated.mainFolderName =
        exampleValidated.projectCode ++ "-" ++ exampleValidated.acronym ++ "-" ++
        exampleValidated.year ++ "-" ++ exampleValidated.person ∧
      exampleValidated.base = String.mk [dch.toUpper, ':', '/'] ∧
      exampleValidated.mainFolder =
        exampleValidated.base ++ exampleValidated.mainFolderName :=
  c2_main_folder_name "A-CABCAR" "2026-Peter" "D" exampleValidated rfl

/-! ### C5 -/

/-- **C5.** Validation applies its rules in a fixed order, each failing
fast with its own error: first the three trimmed fields must be
non-empty (else a missing-fields error naming the empty fields), then
the code-acronym pattern, then the year-person pattern, then the
single-letter drive; only when all pass are
`project_code = code + year[2:4]` and the root path
`uppercase(drive) + ":/"` derived. -/
theorem c5_validation_order :
    ∀ n m d : String,
      (missingList (pyStrip n) (pyStrip m) (pyStrip d) ≠ [] →
        validateInputs n m d =
          .error (.missingFields
            (missingList (pyStrip n) (pyStrip m) (pyStrip d)))) ∧
      (missingList (pyStrip n) (pyStrip m) (pyStrip d) = [] →
        matchCodeAcronym (pyStrip n).data = none →
        validateInputs n m d = .error .invalidName) ∧
      (missingList (pyStrip n) (pyStrip m) (pyStrip d) = [] →
        matchCodeAcronym (pyStrip n).data ≠ none →
        matchYearPerson (pyStrip m).data = none →
        validateInputs n m d = .error .invalidMeta) ∧
      (missingList (pyStrip n) (pyStrip m) (pyStrip d) = [] →
        matchCodeAcronym (pyStrip n).data ≠ none →
        matchYearPerson (pyStrip m).data ≠ none →
        matchDrive (pyStrip d).data = none →
        validateInputs n m d = .error .invalidDrive) ∧
      (∀ v : Validated, validateInputs n m d = .ok v →
        ∃ c body yearChars personChars dch,
          matchCodeAcronym (pyStrip n).data = some (c, body) ∧
          matchYearPerson (pyStrip m).data = some (yearChars, personChars) ∧
          matchDrive (pyStrip d).data = some dch ∧
          v.projectCode = String.mk [c.toUpper] ++ String.mk (yearChars.drop 2) ∧
          v.base = String.mk [dch.toUpper, ':', '/']) := by
  intro n m d
  refine ⟨?_, ?_, ?_, ?_, ?_⟩
  · intro hne
    unfold validateInputs
    rw [if_pos hne]
  · intro hmiss hca
    unfold validateInputs
    rw [if_neg (not_ne_iff.mpr hmiss), hca]
  · intro hmiss hca hyp
    obtain ⟨cb, hcb⟩ := Option.ne_none_iff_exists'.mp hca
    obtain ⟨c, body⟩ := cb
    unfold validateInputs
    rw [if_neg (not_ne_iff.mpr hmiss), hcb, hyp]
  · intro hmiss hca hyp hdr
    obtain ⟨cb, hcb⟩ := Option.ne_none_iff_exists'.mp hca
    obtain ⟨c, body⟩ := cb
    obtain ⟨yp, hyp2⟩ := Option.ne_none_iff_exists'.mp hyp
    obtain ⟨yearChars, personChars⟩ := yp
    unfold validateInputs
    rw [if_neg (not_ne_iff.mpr hmiss), hcb, hyp2, hdr]
  · intro v h
    obtain ⟨c, body, yearChars, personChars, dch, hca, hyp, hdr, hv⟩ :=
      validateInputs_ok_inv h
    subst hv
    exact ⟨c, body, yearChars, personChars, dch, hca, hyp, hdr, rfl, rfl⟩

/-- Witness for C5: each validation stage observed failing fast at a
concrete input, and the derivation at the end-to-end example. -/
theorem c5_validation_order_witness :
    validateInputs "" "2026-Peter" "D" =
      .error (.missingFields ["Code & Project Acronym"]) ∧
    validateInputs "A_Foo" "2026-Peter" "D" = .error .invalidName ∧
    validateInputs "A-CABCAR" "Peter" "D" = .error .invalidMeta ∧
    validateInputs "A-CABCAR" "2026-Peter" "DD" = .error .invalidDrive ∧
    (∃ c body yearChars personChars dch,
      matchCodeAcronym (pyStrip "A-CABCAR").data = some (c, body) ∧
      matchYearPerson (pyStrip "2026-Peter").data = some (yearChars, personChars) ∧
      matchDrive (pyStrip "D").data = some dch ∧
      exampleValidated.projectCode =
        String.mk [c.toUpper] ++ String.mk (yearChars.drop 2) ∧
      exampleValidated.base = String.mk [dch.toUpper, ':', '/']) := by
  refine ⟨?_, ?_, ?_, ?_, ?_⟩
  · exact (c5_validation_order "" "2026-Peter" "D").1 (by decide)
  · exact (c5_validation_order "A_Foo" "2026-Peter" "D").2.1 (by decide) (by decide)
  · exact (c5_validation_order "A-CABCAR" "Peter" "D").2.2.1
      (by decide) (by decide) (by decide)
  · exact (c5_validation_order "A-CABCAR" "2026-Peter" "DD").2.2.2.1
      (by decide) (by decide) (by decide) (by decide)
  · exact (c5_validation_order "A-CABCAR" "2026-Peter" "D").2.2.2.2
      exampleValidated rfl

/-! ### C6 -/

/-- **C6 counterexample.** The claim quantifies over every non-empty
`codeAcronymText` not matching the grammar and asserts the
invalid-code-acronym error.  It fails twice on the code: with the
year-person field empty, `"A-"` (non-empty, non-matching) produces the
missing-fields error instead; and `" A-FOO"` (non-empty, not matching
the grammar as written because of its leading space) is accepted,
because validation strips the field before matching. -/
theorem c6_counterexample :
    ("A-" ≠ "" ∧ matchCodeAcronym ("A-".data) = none ∧
      validateInputs "A-" "" "D" =
        .error (.missingFields ["Start Year & Person"]) ∧
      ValidationError.missingFields ["Start Year & Person"] ≠
        ValidationError.invalidName) ∧
    (" A-FOO" ≠ "" ∧ matchCodeAcronym (" A-FOO".data) = none ∧
      validateInputs " A-FOO" "2026-Peter" "D" =
        .ok { code := 'A', acronym := "FOO", year := "2026",
              person := "Peter", projectCode := "A26", base := "D:/",
              mainFolderName := "A26-FOO-2026-Peter",
              mainFolder := "D:/A26-FOO-2026-Peter" }) := by
  exact ⟨⟨by decide, by decide, rfl, by decide⟩, by decide, by decide, rfl⟩

/-- **C6 (amended).** For every `codeAcronymText` that is non-empty
after trimming and whose trimmed value does not match the code-acronym
grammar, provided the other two fields are non-empty after trimming,
validation fails with the invalid-code-acronym error (so no identity is
produced). -/
theorem c6_invalid_code_acronym :
    ∀ n m d : String,
      pyStrip n ≠ "" →
      matchCodeAcronym (pyStrip n).data = none →
      pyStrip m ≠ "" → pyStrip d ≠ "" →
      validateInputs n m d = .error .invalidName := by
  intro n m d hn hca hm hd
  have hmiss : missingList (pyStrip n) (pyStrip m) (pyStrip d) = [] := by
    unfold missingList
    rw [if_neg hn, if_neg hm, if_neg hd]
    rfl
  unfold validateInputs
  rw [if_neg (not_ne_iff.mpr hmiss), hca]

/-- Witness for C6 (amended) at the spec's example `"12-Foo"`. -/
theorem c6_invalid_code_acronym_witness :
    validateInputs "12-Foo" "2026-Peter" "D" = .error .invalidName :=
  c6_invalid_code_acronym "12-Foo" "2026-Peter" "D"
    (by decide) (by decide) (by decide) (by decide)

/-! ### C10 helper lemmas -/

lemma isPySpace_eq_false_of_isPersonStart {c : Char}
    (hq : isPersonStart c = true) : isPySpace c = false := by
  unfold isPersonStart isAsciiLetter at hq
  unfold isPySpace
  simp only [Bool.or_eq_true, decide_eq_true_eq] at hq
  simp only [Bool.or_eq_false_iff, decide_eq_false_iff_not]
  omega

lemma string_data_append (a b : String) : (a ++ b).data = a.data ++ b.data := by
  cases a
  cases b
  rfl

/-- Stripping a character list whose head is not whitespace yields a
non-empty list whose last character is not whitespace. -/
lemma stripChars_getLast_not_space {q : Char} {rest : List Char}
    (hq : isPySpace q = false) :
    stripChars (q :: rest) ≠ [] ∧
    ∃ c, (stripChars (q :: rest)).getLast? = some c ∧ isPySpace c = false := by
  have hdw : (q :: rest).dropWhile isPySpace = q :: rest := by
    rw [List.dropWhile_cons, if_neg (by simp [hq])]
  have hform : stripChars (q :: rest) = List.rdropWhile isPySpace (q :: rest) := by
    unfold stripChars List.rdropWhile
    rw [hdw]
  have hne : List.rdropWhile isPySpace (q :: rest) ≠ [] := by
    intro hnil
    rw [List.rdropWhile_eq_nil_iff] at hnil
    have hcontra := hnil q (List.mem_cons_self q rest)
    rw [hq] at hcontra
    cases hcontra
  rw [hform]
  refine ⟨hne, (List.rdropWhile isPySpace (q :: rest)).getLast hne, ?_, ?_⟩
  · exact List.getLast?_eq_getLast _ hne
  · have hnot := List.rdropWhile_last_not isPySpace (q :: rest) hne
    simpa using hnot

/-! ### C10 -/

/-- **C10.** For every accepted year-person input, the person component
is stripped of surrounding whitespace after the pattern match, so the
person used is non-empty and ends in a non-whitespace character, and
the generated main folder name never ends in a whitespace character (in
particular never in a space). -/
theorem c10_person_trimmed_no_trailing_space :
    ∀ (n m d : String) (v : Validated), validateInputs n m d = .ok v →
      v.person ≠ "" ∧
      (∃ c, v.person.data.getLast? = some c ∧ isPySpace c = false) ∧
      (∃ c, v.mainFolderName.data.getLast? = some c ∧ isPySpace c = false) := by
  intro n m d v h
  obtain ⟨c, body, yearChars, personChars, dch, hca, hyp, hdr, hv⟩ :=
    validateInputs_ok_inv h
  obtain ⟨y1, y2, y3, y4, q, rest, _, _, hpc, _, _, _, _, hq, _⟩ :=
    matchYearPerson_inv hyp
  subst hv
  subst hpc
  have hqns : isPySpace q = false := isPySpace_eq_false_of_isPersonStart hq
  obtain ⟨hne, cl, hcl, hclns⟩ := @stripChars_getLast_not_space q rest hqns
  refine ⟨?_, ⟨cl, hcl, hclns⟩, ⟨cl, ?_, hclns⟩⟩
  · intro heq
    exact hne (congrArg String.data heq)
  · show ((String.mk [c.toUpper] ++ String.mk (yearChars.drop 2) ++ "-" ++
      String.mk body ++ "-" ++ String.mk yearChars ++ "-") ++
      String.mk (stripChars (q :: rest))).data.getLast? = some cl
    rw [string_data_append, List.getLast?_append_of_ne_nil _ hne]
    exact hcl

/-- Witness for C10 at the end-to-end example. -/
theorem c10_person_trimmed_witness :
    exampleValidated.person ≠ "" ∧
    (∃ c, exampleValidated.person.data.getLast? = some c ∧
      isPySpace c = false) ∧
    (∃ c, exampleValidated.mainFolderName.data.getLast? = some c ∧
      isPySpace c = false) :=
  c10_person_trimmed_no_trailing_space "A-CABCAR" "2026-Peter" "D"
    exampleValidated rfl

/-! ### Plan expansion lemmas (C3, C4) -/

lemma childFold (f : String → String) :
    ∀ (children : List String) (acc : List String),
      children.foldl (fun a ch => a ++ [f ch]) acc = acc ++ children.map f := by
  intro children
  induction children with
  | nil => intro acc; simp
  | cons c cs ih => intro acc; simp [List.foldl_cons, ih]

/-- The `self.section_vars` iteration order with each section's
`self.tree[section]` subfolder list is exactly `tree` itself. -/
lemma layoutSections_eq_tree :
    layout_order.map (fun s => (s, treeSubs s)) = tree := by decide

/-- The subfolder loop of `create_folders` (lines 375-386) expands to
the filtered, flat-mapped subfolder paths in `tree` order. -/
lemma subLevel (pc acr mf sect : String) (subSel : String → String → Bool) :
    ∀ (subs : List String) (acc : List String),
      subs.foldl
        (fun acc2 sub =>
          if subSel sect sub then
            (subSubChildren sect sub).foldl
              (fun acc3 child =>
                acc3 ++ [mf ++ "/" ++ codeLabelName pc acr sect ++ "/" ++
                  codeLabelName pc acr sub ++ "/" ++ codeLabelName pc acr child])
              (acc2 ++ [mf ++ "/" ++ codeLabelName pc acr sect ++ "/" ++
                codeLabelName pc acr sub])
          else acc2) acc =
      acc ++ (subs.filter (subSel sect)).flatMap (fun sub =>
        (mf ++ "/" ++ codeLabelName pc acr sect ++ "/" ++
          codeLabelName pc acr sub) ::
        (subSubChildren sect sub).map (fun child =>
          mf ++ "/" ++ codeLabelName pc acr sect ++ "/" ++
          codeLabelName pc acr sub ++ "/" ++ codeLabelName pc acr child)) := by
  intro subs
  induction subs with
  | nil => intro acc; simp
  | cons sub subs ih =>
    intro acc
    rw [List.foldl_cons, List.filter_cons]
    by_cases h : subSel sect sub
    · rw [if_pos h, if_pos h, childFold, ih]
      simp [List.append_assoc]
    · rw [if_neg h, if_neg h, ih]

/-- The section loop of `create_folders` (lines 367-386) expands to the
filtered, flat-mapped section blocks. -/
lemma secLevel (pc acr mf : String) (secSel : String → Bool)
    (subSel : String → String → Bool) :
    ∀ (secs : List (String × List String)) (acc : List String),
      secs.foldl
        (fun acc sp =>
          if secSel sp.1 then
            sp.2.foldl
              (fun acc2 sub =>
                if subSel sp.1 sub then
                  (subSubChildren sp.1 sub).foldl
                    (fun acc3 child =>
                      acc3 ++ [mf ++ "/" ++ codeLabelName pc acr sp.1 ++ "/" ++
                        codeLabelName pc acr sub ++ "/" ++
                        codeLabelName pc acr child])
                    (acc2 ++ [mf ++ "/" ++ codeLabelName pc acr sp.1 ++ "/" ++
                      codeLabelName pc acr sub])
                else acc2)
              (acc ++ [mf ++ "/" ++ codeLabelName pc acr sp.1])
          else acc) acc =
      acc ++ (secs.filter (fun sp => secSel sp.1)).flatMap (fun sp =>
        (mf ++ "/" ++ codeLabelName pc acr sp.1) ::
          (sp.2.filter (subSel sp.1)).flatMap (fun sub =>
            (mf ++ "/" ++ codeLabelName pc acr sp.1 ++ "/" ++
              codeLabelName pc acr sub) ::
              (subSubChildren sp.1 sub).map (fun child =>
                mf ++ "/" ++ codeLabelName pc acr sp.1 ++ "/" ++
                codeLabelName pc acr sub ++ "/" ++
                codeLabelName pc acr child))) := by
  intro secs
  induction secs with
  | nil => intro acc; simp
  | cons sp secs ih =>
    intro acc
    rw [List.foldl_cons, List.filter_cons]
    by_cases h : secSel sp.1
    · rw [if_pos h, if_pos h, subLevel, ih]
      simp [List.append_assoc]
    · rw [if_neg h, if_neg h, ih]

/-- The sequence of `create_folder` calls issued by `create_folders`
equals the spec's `planCreationPaths`. -/
lemma createFolders_eq_plan (pc acr mf : String) (secSel : String → Bool)
    (subSel : String → String → Bool) :
    createFolders pc acr mf secSel subSel =
      planCreationPaths pc acr mf secSel subSel := by
  unfold createFolders planCreationPaths
  rw [layoutSections_eq_tree, secLevel]
  rfl

lemma sections_label_mem : ∀ sp ∈ tree, sp.1 ∈ allLabels := by decide

lemma subs_label_mem : ∀ sp ∈ tree, ∀ sub ∈ sp.2, sub ∈ allLabels := by decide

lemma children_label_mem :
    ∀ sp ∈ tree, ∀ sub ∈ sp.2, ∀ ch ∈ subSubChildren sp.1 sub,
      ch ∈ allLabels := by decide

/-! ### C3 -/

/-- **C3.** Every section, subfolder and extra-child folder created by
`create_folders` is named `projectCode-acronym label` — a single space
before the taxonomy label, never a hyphen (`codeLabelName` is the
`f"{project_code}-{acronym} {label}"` format string); and at the spec's
end-to-end example (code-acronym `A-CABCAR`, year-person `2026-Peter`,
drive `D`, section `Outcome` with subfolder `Reports` selected) the
created paths are exactly the three expected ones. -/
theorem c3_space_separated_names :
    (∀ (pc acr mf : String) (secSel : String → Bool)
        (subSel : String → String → Bool) (p : String),
      p ∈ createFolders pc acr mf secSel subSel →
      p = mf ∨ ∃ parent label, label ∈ allLabels ∧
        p = parent ++ "/" ++ codeLabelName pc acr label) ∧
    validateInputs "A-CABCAR" "2026-Peter" "D" = .ok exampleValidated ∧
    createFolders exampleValidated.projectCode exampleValidated.acronym
        exampleValidated.mainFolder
        (fun s => s == "Outcome")
        (fun s sub => s == "Outcome" && sub == "Reports") =
      ["D:/A26-CABCAR-2026-Peter",
       "D:/A26-CABCAR-2026-Peter/A26-CABCAR Outcome",
       "D:/A26-CABCAR-2026-Peter/A26-CABCAR Outcome/A26-CABCAR Reports"] := by
  refine ⟨?_, rfl, by decide⟩
  intro pc acr mf secSel subSel p hp
  rw [createFolders_eq_plan] at hp
  unfold planCreationPaths at hp
  rcases List.mem_cons.mp hp with h | h
  · exact Or.inl h
  · right
    obtain ⟨sp, hsp, hpin⟩ := List.mem_flatMap.mp h
    have hsp2 := List.mem_of_mem_filter hsp
    rcases List.mem_cons.mp hpin with h2 | h2
    · exact ⟨mf, sp.1, sections_label_mem sp hsp2, h2⟩
    · obtain ⟨sub, hsub, hpin2⟩ := List.mem_flatMap.mp h2
      have hsub2 := List.mem_of_mem_filter hsub
      rcases List.mem_cons.mp hpin2 with h3 | h3
      · exact ⟨mf ++ "/" ++ codeLabelName pc acr sp.1, sub,
          subs_label_mem sp hsp2 sub hsub2, h3⟩
      · obtain ⟨ch, hch, hcheq⟩ := List.mem_map.mp h3
        exact ⟨mf ++ "/" ++ codeLabelName pc acr sp.1 ++ "/" ++
          codeLabelName pc acr sub, ch,
          children_label_mem sp hsp2 sub hsub2 ch hch, hcheq.symm⟩

/-- Witness for C3: the Outcome section path of the example run has the
`parent/projectCode-acronym label` shape with a taxonomy label. -/
theorem c3_space_separated_names_witness :
    ("D:/A26-CABCAR-2026-Peter/A26-CABCAR Outcome" : String) =
      "D:/A26-CABCAR-2026-Peter" ∨
    ∃ parent label, label ∈ allLabels ∧
      ("D:/A26-CABCAR-2026-Peter/A26-CABCAR Outcome" : String) =
        parent ++ "/" ++ codeLabelName "A26" "CABCAR" label :=
  c3_space_separated_names.1 "A26" "CABCAR" "D:/A26-CABCAR-2026-Peter"
    (fun s => s == "Outcome") (fun s sub => s == "Outcome" && sub == "Reports")
    "D:/A26-CABCAR-2026-Peter/A26-CABCAR Outcome" (by decide)

/-! ### C4 -/

/-- **C4.** For every validated identity and checkbox state, the
creation sequence of `create_folders` is: the main folder first, then
for each selected section in taxonomy declaration order the section
path followed by each selected subfolder's path and its fixed
extra-children paths; unselected sections and subfolders contribute
nothing (this is `planCreationPaths`); the iteration order
`layout_order` is the declaration order of `tree`; and selecting
section `Field Measurements` with subfolder `Hydrology` yields the
Hydrology path plus the `Hydrology Manual` and `Hydrology Instrument`
child paths. -/
theorem c4_plan_follows_taxonomy_order :
    (∀ (pc acr mf : String) (secSel : String → Bool)
        (subSel : String → String → Bool),
      createFolders pc acr mf secSel subSel =
        planCreationPaths pc acr mf secSel subSel) ∧
    layout_order = tree.map (fun sp => sp.1) ∧
    createFolders exampleValidated.projectCode exampleValidated.acronym
        exampleValidated.mainFolder
        (fun s => s == "Field Measurements")
        (fun s sub => s == "Field Measurements" && sub == "Hydrology") =
      ["D:/A26-CABCAR-2026-Peter",
       "D:/A26-CABCAR-2026-Peter/A26-CABCAR Field Measurements",
       "D:/A26-CABCAR-2026-Peter/A26-CABCAR Field Measurements/A26-CABCAR Hydrology",
       "D:/A26-CABCAR-2026-Peter/A26-CABCAR Field Measurements/A26-CABCAR Hydrology/A26-CABCAR Hydrology Manual",
       "D:/A26-CABCAR-2026-Peter/A26-CABCAR Field Measurements/A26-CABCAR Hydrology/A26-CABCAR Hydrology Instrument"] :=
  ⟨createFolders_eq_plan, by decide, by decide⟩

end FolderCreator
